import Mathlib

/-!
# Verification of `connexion/apps/async_app.py`

A shallow embedding of the dispatch core of the connexion asynchronous
application (`AsyncAsgiApp.asgi_app`, `AsyncApi._build_response` and the
response converters), together with theorems checking the natural-language
specification against it.

Modelling conventions:
* Python `None` for payload data is the `PyData.pyNone` value; optional
  strings and integers are `Option String` / `Option Nat`.
* Python's truthiness-based `a or b` on optional strings is `pyOrStr`
  (`None` and the empty string are falsy).
* A Starlette response object is `StarletteResp`; the constructor
  (`mkResponse`) stores its arguments, applying the class-default media
  type when the `media_type` argument is `None`, exactly as probed by the
  code (`status_code`, `media_type`, `headers`, `body`).  The `body`
  attribute is present (`hasBody`) for the materializing response kinds
  and yields the stored content.
* `_prepare_body_and_status_code` lives in `connexion.apis.abstract`, not
  in this module; the build routine is parametrized by it (`PrepareFn`),
  and a spec-modelled instance is provided where a concrete one is needed.
-/

/-- The two response classes `_build_response` can construct:
`starlette.responses.Response` (generic) and
`starlette.responses.JSONResponse` (json). -/
inductive RespKind where
  | generic
  | json
  deriving DecidableEq, Repr

mutual

/-- Python payload values distinguished by the code under verification:
`None`, `str`, `bytes`, `dict`, `list`, a Starlette response object, or
any other object. -/
inductive PyData where
  | pyNone : PyData
  | pyStr : String → PyData
  | pyBytes : List Nat → PyData
  | pyDict : List (String × PyData) → PyData
  | pyList : List PyData → PyData
  | pyResp : StarletteResp → PyData
  | pyOther : Nat → PyData

/-- A Starlette response object, exposing the attributes the code probes:
`status_code`, `media_type`, `headers` and (when `hasBody`) `body`, which
we model as the stored content.  `isMiddlewareResponse` marks instances of
`connexion.lifecycle.MiddlewareResponse`, a Starlette `Response` subclass
that `_is_framework_response` excludes. -/
inductive StarletteResp where
  | mk : RespKind → PyData → Nat → Option String → List (String × String) →
      Bool → Bool → StarletteResp

end

/-- The response class stored on the object. -/
def StarletteResp.kind : StarletteResp → RespKind
  | .mk k _ _ _ _ _ _ => k

/-- The content the response was constructed with. -/
def StarletteResp.content : StarletteResp → PyData
  | .mk _ c _ _ _ _ _ => c

/-- The `status_code` attribute. -/
def StarletteResp.statusCode : StarletteResp → Nat
  | .mk _ _ s _ _ _ _ => s

/-- The `media_type` attribute. -/
def StarletteResp.mediaType : StarletteResp → Option String
  | .mk _ _ _ m _ _ _ => m

/-- The `headers` attribute. -/
def StarletteResp.headers : StarletteResp → List (String × String)
  | .mk _ _ _ _ h _ _ => h

/-- Whether the response has a materialized `body` attribute
(`FileResponse` and `StreamingResponse` do not). -/
def StarletteResp.hasBody : StarletteResp → Bool
  | .mk _ _ _ _ _ b _ => b

/-- Whether the object is a `connexion.lifecycle.MiddlewareResponse`. -/
def StarletteResp.isMiddlewareResponse : StarletteResp → Bool
  | .mk _ _ _ _ _ _ m => m

/-- Python truthiness for an optional string: `None` and `""` are falsy. -/
def pyTruthy : Option String → Bool
  | none => false
  | some s => !(s == "")

/-- Python `a or b` on optional strings: `a` when truthy, else `b`. -/
def pyOrStr (a b : Option String) : Option String :=
  if pyTruthy a then a else b

/-- The class-level `media_type` default of each response class:
`JSONResponse.media_type = "application/json"`, `Response.media_type = None`. -/
def respClassDefaultMediaType : RespKind → Option String
  | .generic => none
  | .json => some "application/json"

/-- Constructing a Starlette response:
`response_cls(content=data, status_code=..., media_type=..., headers=...)`.
The constructor keeps the class default media type when the argument is
`None`; the constructed kinds materialize a `body` and are not
`MiddlewareResponse` instances. -/
def mkResponse (kind : RespKind) (content : PyData) (statusCode : Nat)
    (mediaType : Option String) (headers : List (String × String)) : StarletteResp :=
  StarletteResp.mk kind content statusCode
    (match mediaType with
     | none => respClassDefaultMediaType kind
     | some s => some s)
    headers true false

/-- `AsyncApi._is_framework_response` (lines 177-181):
`isinstance(response, StarletteResponse) and not isinstance(response, MiddlewareResponse)`. -/
def is_framework_response : PyData → Bool
  | .pyResp r => !r.isMiddlewareResponse
  | _ => false

/-- The body/status normalization collaborator
`cls._prepare_body_and_status_code(data=..., mimetype=..., status_code=...)`:
produces `(data, status_code, serialized_mimetype)`. -/
def PrepareFn : Type :=
  PyData → Option String → Option Nat → PyData × Nat × Option String

/-- Modelled from the spec: `_prepare_body_and_status_code` is defined in
`connexion.apis.abstract.AbstractAPI`, which is not part of this module.
The spec describes only its contract — "given a raw value that may be a
bare payload or a `(payload, status)` / `(payload, status, headers)` tuple,
produce a resolved `(data, statusCode, serializedMimetype)`" — and its
scenarios default a missing status code to 200.  We model it as the
identity on a bare payload, keeping a provided status code (defaulting to
200) and passing the mimetype through as the serialized mimetype. -/
def prepare_body_and_status_code : PrepareFn :=
  fun data mimetype status_code => (data, status_code.getD 200, mimetype)

/-- The error raised by `_build_response` when `data` is a framework
response (a `TypeError` in the source; `InvalidReturnShape` in the spec). -/
inductive BuildError where
  | invalidReturnShape : String → BuildError
  deriving DecidableEq, Repr

/-- Content-type resolution of `_build_response` (lines 222-228):
`content_type = content_type or mimetype or serialized_mimetype`, then if
still `None`, infer `text/plain` for `str` data and
`application/octet-stream` for `bytes` data. -/
def resolveContentType (content_type mimetype serialized : Option String)
    (data : PyData) : Option String :=
  match pyOrStr content_type (pyOrStr mimetype serialized) with
  | some s => some s
  | none =>
    match data with
    | .pyStr _ => some "text/plain"
    | .pyBytes _ => some "application/octet-stream"
    | _ => none

/-- Response-class selection of `_build_response` (lines 230-233):
`JSONResponse` for `dict` or `list` data, `Response` otherwise. -/
def responseKindFor : PyData → RespKind
  | .pyDict _ => .json
  | .pyList _ => .json
  | _ => .generic

/-- `AsyncApi._build_response` (lines 208-240), parametrized by the
`_prepare_body_and_status_code` collaborator. -/
def build_response (prepare : PrepareFn) (data : PyData)
    (mimetype content_type : Option String) (status_code : Option Nat)
    (headers : List (String × String)) : Except BuildError StarletteResp :=
  if is_framework_response data then
    Except.error (BuildError.invalidReturnShape
      "Cannot return starlette.responses.Response in tuple. Only raw data can be returned in tuple.")
  else
    let r := prepare data mimetype status_code
    let d := r.1
    let sc := r.2.1
    let ser := r.2.2
    Except.ok (mkResponse (responseKindFor d) d sc
      (resolveContentType content_type mimetype ser d) headers)

/-- `connexion.lifecycle.ConnexionResponse` as used by the converters: the
canonical response `{status_code, mimetype, content_type, headers, body}`. -/
structure ConnexionResponse where
  status_code : Nat
  mimetype : Option String
  content_type : Option String
  headers : List (String × String)
  body : PyData

/-- `AsyncApi._framework_to_connexion_response` (lines 183-196): probes the
native response's attributes; `body` becomes `None` when the response kind
does not materialize a body. -/
def framework_to_connexion_response (response : StarletteResp)
    (mimetype : Option String) : ConnexionResponse :=
  { status_code := response.statusCode
    mimetype := mimetype
    content_type := response.mediaType
    headers := response.headers
    body := if response.hasBody then response.content else PyData.pyNone }

/-- `AsyncApi._connexion_to_framework_response` (lines 198-206): delegates
to the build routine with `mimetype = response.mimetype or mimetype`. -/
def connexion_to_framework_response (prepare : PrepareFn)
    (response : ConnexionResponse) (mimetype : Option String) :
    Except BuildError StarletteResp :=
  build_response prepare response.body (pyOrStr response.mimetype mimetype)
    response.content_type (some response.status_code) response.headers

/-- A possibly nested deferred (coroutine) value: either already a
concrete value, or a coroutine resolving to another possibly deferred
value.  `asyncio.iscoroutine` distinguishes the two constructors. -/
inductive Deferred (α : Type) where
  | done : α → Deferred α
  | coro : Deferred α → Deferred α

/-- The unwrapping loop
`while asyncio.iscoroutine(response): response = await response`
(lines 109-110 and 172-173). -/
def resolveDeferred {α : Type} : Deferred α → α
  | .done v => v
  | .coro d => resolveDeferred d

/-- A coroutine chain of the given nesting depth around a concrete value. -/
def nestDeferred {α : Type} : Nat → α → Deferred α
  | 0, v => Deferred.done v
  | n + 1, v => Deferred.coro (nestDeferred n v)

/-- `AsyncApi.get_response` (lines 170-175), parametrized by the inherited
`_get_response` collaborator: unwrap the deferred chain, then hand the
concrete value to `cls._get_response(response, mimetype=mimetype)`. -/
def get_response {α β : Type} (getResp : α → Option String → β)
    (response : Deferred α) (mimetype : Option String) : β :=
  getResp (resolveDeferred response) mimetype

/-- The routing context attached to the scope by the routing middleware
(`scope["extensions"][ROUTING_CONTEXT]`): an opaque mapping read with
`.get("api_base_path")` and `.get("operation_id")`. -/
structure RoutingContext where
  api_base_path : Option String
  operation_id : Option String

/-- The ASGI scope as consulted by the dispatch core: transport method and
path (never read by `asgi_app` itself) and the optional routing-context
attachment (`none` models a `KeyError` on
`scope["extensions"][ROUTING_CONTEXT]`). -/
structure Scope where
  method : String
  path : String
  routingCtx : Option RoutingContext

/-- The errors `asgi_app` can raise: `MissingMiddleware` (the spec's
`MissingRoutingInfo`), and a `ProblemException` carrying an HTTP status
(`MissingAsyncOperation`, the spec's `UnknownOperation`, is constructed
with status 500 at lines 293-295). -/
inductive DispatchError where
  | missingMiddleware : String → DispatchError
  | problem : Nat → String → DispatchError
  deriving DecidableEq, Repr

/-- The state of an `AsyncAsgiApp` instance, parametrized by the result
type `σ` of the external ASGI collaborators: `apis` maps a base path to a
registered sub-application's dispatch entry point, `operations` maps an
operation id to the registered `AsyncOperation` (modelled by the awaited,
possibly still deferred, response of `operation(scope, receive, send)`),
and `router` is the manually registered Starlette route table. -/
structure App (σ : Type) where
  apis : List (String × (Scope → σ))
  operations : List (String × (Scope → Deferred StarletteResp))
  router : Scope → σ
  base_path : String

/-- What one call of `asgi_app` did: delegated the request to the
sub-application registered at `basePath` (returning its result
unchanged), invoked the operation registered under `operationId` and sent
its resolved response, or fell back to the manual route table once. -/
inductive Outcome (σ : Type) where
  | delegated : String → σ → Outcome σ
  | responded : String → StarletteResp → Outcome σ
  | manualRouted : σ → Outcome σ

/-- `AsyncAsgiApp.asgi_app` (lines 69-111): read the routing context from
the scope (raising `MissingMiddleware` when absent); delegate to a
registered sub-application when `api_base_path` is present, registered and
different from the own base path; otherwise look up `operation_id` in the
operation table — invoking the operation and sending its resolved response
when found, falling back to the manual router when `operation_id` is
`None`, and raising `MissingAsyncOperation` (status 500) otherwise. -/
def asgi_app {σ : Type} (app : App σ) (scope : Scope) :
    Except DispatchError (Outcome σ) :=
  match scope.routingCtx with
  | none =>
    Except.error (DispatchError.missingMiddleware
      "Could not find routing information in scope. Please make sure you have a routing middleware registered upstream. ")
  | some ctx =>
    let elseBranch : Except DispatchError (Outcome σ) :=
      match ctx.operation_id with
      | none => Except.ok (Outcome.manualRouted (app.router scope))
      | some oid =>
        match List.lookup oid app.operations with
        | some operation =>
          Except.ok (Outcome.responded oid (resolveDeferred (operation scope)))
        | none =>
          Except.error (DispatchError.problem 500 "Encountered unknown operation_id.")
    match ctx.api_base_path with
    | none => elseBranch
    | some p =>
      match List.lookup p app.apis with
      | none => elseBranch
      | some api =>
        if p = app.base_path then elseBranch
        else Except.ok (Outcome.delegated p (api scope))

/-- The sub-application delegation guard of lines 86-90: `api_base_path`
is not `None`, is a key of `self.apis`, and differs from `self.base_path`. -/
def delegationGuard {σ : Type} (app : App σ) (ctx : RoutingContext) : Bool :=
  match ctx.api_base_path with
  | none => false
  | some p => (List.lookup p app.apis).isSome && !(p == app.base_path)

/-- The three dispatch actions named by the specification. -/
inductive Choice where
  | delegateSub : String → Choice
  | invokeOperation : String → Choice
  | manualFallback : Choice
  deriving DecidableEq, Repr

/-- Following the spec's words (refinement side, not translated from the
source): evaluate the three guards in the fixed order {delegate to a
registered sub-application, invoke a registered operation, fall back to
the manual route table} and take the first that matches; no guard matches
when the context names an unregistered operation. -/
def specChoice {σ : Type} (app : App σ) (ctx : RoutingContext) : Option Choice :=
  match ctx.api_base_path with
  | some p =>
    if (List.lookup p app.apis).isSome && !(p == app.base_path) then
      some (Choice.delegateSub p)
    else specChoiceAfterDelegation app ctx
  | none => specChoiceAfterDelegation app ctx
where
  specChoiceAfterDelegation (app : App σ) (ctx : RoutingContext) : Option Choice :=
    match ctx.operation_id with
    | some oid =>
      if (List.lookup oid app.operations).isSome then
        some (Choice.invokeOperation oid)
      else none
    | none => some Choice.manualFallback

/-- The action an outcome witnesses. -/
def choiceOf {σ : Type} : Outcome σ → Choice
  | .delegated p _ => Choice.delegateSub p
  | .responded oid _ => Choice.invokeOperation oid
  | .manualRouted _ => Choice.manualFallback

/-- A routing context is well formed for an app when it does not name an
operation absent from the operation table (unless the request is taken by
sub-application delegation): per the spec, an unknown `operation_id` is a
registration/build defect, not a well-formed request. -/
def WellFormed {σ : Type} (app : App σ) (ctx : RoutingContext) : Prop :=
  delegationGuard app ctx = true ∨
    match ctx.operation_id with
    | none => True
    | some oid => (List.lookup oid app.operations).isSome = true

/-- A manual route table entry as registered on the Starlette router:
a path and the endpoint it was registered with (`none` when no endpoint
was supplied), with the handler type abstract. -/
abbrev RouteTable (η : Type) : Type :=
  List (String × Option η)

/-- `AsyncAsgiApp.add_url_rule` (lines 46-47):
`self.router.add_route(path=rule, endpoint=view_func, name=endpoint)` —
the Starlette router gains a route for `rule` whose endpoint is
`view_func`. -/
def add_url_rule {η : Type} (router : RouteTable η) (rule : String)
    (view_func : Option η) : RouteTable η :=
  router ++ [(rule, view_func)]

/-- The decorator returned by `AsyncAsgiApp.route(rule)` (lines 49-67),
applied to a view function `func`: the body calls
`self.router.add_route(rule, **kwargs)` — without passing `func` — and
returns `func` unchanged, so the route is registered with no endpoint
(with Starlette's `Router.add_route`, whose `endpoint` parameter is
required, the call itself fails; we model the registration it attempts). -/
def route_decorator {η : Type} (router : RouteTable η) (rule : String)
    (func : η) : RouteTable η × η :=
  (router ++ [(rule, none)], func)

/-! ## Helper lemmas -/

theorem resolveDeferred_nestDeferred {α : Type} (n : Nat) (v : α) :
    resolveDeferred (nestDeferred n v) = v := by
  induction n with
  | zero => rfl
  | succ n ih => simpa [nestDeferred, resolveDeferred] using ih

theorem asgi_app_of_guard_false {σ : Type} (app : App σ) (scope : Scope)
    (ctx : RoutingContext) (hctx : scope.routingCtx = some ctx)
    (hg : delegationGuard app ctx = false) :
    asgi_app app scope =
      match ctx.operation_id with
      | none => Except.ok (Outcome.manualRouted (app.router scope))
      | some oid =>
        match List.lookup oid app.operations with
        | some operation =>
          Except.ok (Outcome.responded oid (resolveDeferred (operation scope)))
        | none =>
          Except.error (DispatchError.problem 500 "Encountered unknown operation_id.") := by
  unfold delegationGuard at hg
  cases habp : ctx.api_base_path with
  | none => simp [asgi_app, hctx, habp]
  | some p =>
    have hc : ((List.lookup p app.apis).isSome && !(p == app.base_path)) = false := by
      rw [habp] at hg; exact hg
    cases hlk : List.lookup p app.apis with
    | none => simp [asgi_app, hctx, habp, hlk]
    | some api =>
      rw [hlk] at hc
      have hp : p = app.base_path := by simpa using hc
      simp [asgi_app, hctx, habp, hlk, hp]
      split <;> rfl

theorem specChoice_of_guard_false {σ : Type} (app : App σ) (ctx : RoutingContext)
    (hg : delegationGuard app ctx = false) :
    specChoice app ctx = specChoice.specChoiceAfterDelegation app ctx := by
  unfold delegationGuard at hg
  cases habp : ctx.api_base_path with
  | none => simp [specChoice, habp]
  | some p =>
    have hc : ((List.lookup p app.apis).isSome && !(p == app.base_path)) = false := by
      rw [habp] at hg; exact hg
    simp [specChoice, habp, hc]

/-! ## Claim theorems: dispatch -/

/-- C1: For every request carrying a well-formed RoutingContext, the
dispatch entry point chooses exactly one of the three actions {delegate to
a registered sub-application, invoke a registered operation, fall back to
the manual route table}, evaluating the guards in that fixed order and
taking the first that matches; no well-formed request triggers two of
these actions or none of them. -/
theorem asgi_app_dispatch_first_match {σ : Type} (app : App σ) (scope : Scope)
    (ctx : RoutingContext) (hctx : scope.routingCtx = some ctx)
    (hwf : WellFormed app ctx) :
    ∃ out, asgi_app app scope = Except.ok out ∧
      specChoice app ctx = some (choiceOf out) := by
  by_cases hg : delegationGuard app ctx = true
  · unfold delegationGuard at hg
    cases habp : ctx.api_base_path with
    | none => rw [habp] at hg; cases hg
    | some p =>
      have hc : ((List.lookup p app.apis).isSome && !(p == app.base_path)) = true := by
        rw [habp] at hg; exact hg
      have h12 : (List.lookup p app.apis).isSome = true ∧ p ≠ app.base_path := by
        simpa using hc
      obtain ⟨api, hapi⟩ := Option.isSome_iff_exists.mp h12.1
      have hne : p ≠ app.base_path := h12.2
      refine ⟨Outcome.delegated p (api scope), ?_, ?_⟩
      · simp [asgi_app, hctx, habp, hapi, hne]
      · simp [specChoice, habp, hapi, hne, choiceOf]
  · have hg' : delegationGuard app ctx = false := by simpa using hg
    have hop : (match ctx.operation_id with
        | none => True
        | some oid => (List.lookup oid app.operations).isSome = true) := by
      rcases hwf with h | h
      · exact absurd h hg
      · exact h
    rw [asgi_app_of_guard_false app scope ctx hctx hg',
      specChoice_of_guard_false app ctx hg']
    cases hoid : ctx.operation_id with
    | none =>
      exact ⟨Outcome.manualRouted (app.router scope), rfl,
        by simp [specChoice.specChoiceAfterDelegation, hoid, choiceOf]⟩
    | some oid =>
      rw [hoid] at hop
      obtain ⟨operation, hreg⟩ := Option.isSome_iff_exists.mp hop
      refine ⟨Outcome.responded oid (resolveDeferred (operation scope)), ?_, ?_⟩
      · simp [hreg]
      · simp [specChoice.specChoiceAfterDelegation, hoid, hreg, choiceOf]

/-- C3: For every request whose RoutingContext has `api_base_path`
non-null, registered in the sub-application mapping and different from the
dispatching instance's own base path, dispatch delegates the entire
request to that sub-application's dispatch entry point and returns its
result unchanged; the own operation table and manual route table are never
consulted (the result is invariant under replacing them). -/
theorem asgi_app_delegates_to_subapp {σ : Type} (app : App σ) (scope : Scope)
    (ctx : RoutingContext) (p : String) (api : Scope → σ)
    (hctx : scope.routingCtx = some ctx)
    (habp : ctx.api_base_path = some p)
    (hreg : List.lookup p app.apis = some api)
    (hne : p ≠ app.base_path) :
    asgi_app app scope = Except.ok (Outcome.delegated p (api scope)) ∧
      ∀ (ops : List (String × (Scope → Deferred StarletteResp)))
        (router : Scope → σ),
        asgi_app { apis := app.apis
                   operations := ops
                   router := router
                   base_path := app.base_path } scope =
          Except.ok (Outcome.delegated p (api scope)) := by
  constructor
  · simp [asgi_app, hctx, habp, hreg, hne]
  · intro ops router
    simp [asgi_app, hctx, habp, hreg, hne]

/-- C4: For every request with routing context attached that does not
satisfy the sub-application delegation guard and whose `operation_id` is
absent from the operation table: when `operation_id` is null, dispatch
falls back to the manual route table exactly once and raises no error;
when `operation_id` is non-null, dispatch raises `MissingAsyncOperation`
as a status-500 server fault and never consults the manual route table
(the error is invariant under replacing the router). -/
theorem asgi_app_unregistered_operation {σ : Type} (app : App σ) (scope : Scope)
    (ctx : RoutingContext) (hctx : scope.routingCtx = some ctx)
    (hg : delegationGuard app ctx = false) :
    (ctx.operation_id = none →
      asgi_app app scope = Except.ok (Outcome.manualRouted (app.router scope))) ∧
    ∀ oid, ctx.operation_id = some oid →
      List.lookup oid app.operations = none →
      (asgi_app app scope =
          Except.error (DispatchError.problem 500 "Encountered unknown operation_id.") ∧
        ∀ router : Scope → σ,
          asgi_app { apis := app.apis
                     operations := app.operations
                     router := router
                     base_path := app.base_path } scope =
            Except.error (DispatchError.problem 500 "Encountered unknown operation_id.")) := by
  constructor
  · intro hoid
    rw [asgi_app_of_guard_false app scope ctx hctx hg, hoid]
  · intro oid hoid hmiss
    constructor
    · rw [asgi_app_of_guard_false app scope ctx hctx hg, hoid]
      simp [hmiss]
    · intro router
      have hg2 : delegationGuard
          ({ apis := app.apis
             operations := app.operations
             router := router
             base_path := app.base_path } : App σ) ctx = false := hg
      rw [asgi_app_of_guard_false _ scope ctx hctx hg2, hoid]
      simp [hmiss]

/-- C5: For every request whose scope lacks the routing-context
attachment, dispatch fails with the `MissingMiddleware` error (the spec's
`MissingRoutingInfo`), independent of the request's method and path; the
error propagates out of the dispatch call, and no sub-application mapping,
operation table or manual route table of any app is consulted (the result
does not depend on `app` at all). -/
theorem asgi_app_missing_routing_context {σ : Type} (app : App σ)
    (method path : String) :
    asgi_app app { method := method, path := path, routingCtx := none } =
      Except.error (DispatchError.missingMiddleware
        "Could not find routing information in scope. Please make sure you have a routing middleware registered upstream. ") :=
  rfl

/-- C9: For every handler result that is a finite chain of nested deferred
(coroutine) values resolving to a concrete response `r`, dispatch
repeatedly awaits the result until it is no longer deferred and then
proceeds with `r` — the unwrapping loop has no fixed iteration cap and
terminates for every finite nesting depth `n`. -/
theorem asgi_app_unwraps_nested_deferred {σ : Type} (app : App σ)
    (scope : Scope) (ctx : RoutingContext) (oid : String)
    (operation : Scope → Deferred StarletteResp) (n : Nat) (r : StarletteResp)
    (hctx : scope.routingCtx = some ctx)
    (hg : delegationGuard app ctx = false)
    (hoid : ctx.operation_id = some oid)
    (hreg : List.lookup oid app.operations = some operation)
    (hres : operation scope = nestDeferred n r) :
    asgi_app app scope = Except.ok (Outcome.responded oid r) := by
  rw [asgi_app_of_guard_false app scope ctx hctx hg, hoid]
  simp [hreg, hres, resolveDeferred_nestDeferred]

/-! ## Claim theorems: response building -/

/-- C2: For every payload passed through the build routine (with any
body/status normalization collaborator), if the normalized payload is a
mapping (`dict`) or a sequence (`list`) then the constructed native
response is of the JSON-serializing kind, and for every other normalized
payload (including strings and bytes) it is of the generic kind. -/
theorem build_response_shape_dispatch {prepare : PrepareFn} (data d : PyData)
    (mimetype content_type ser : Option String) (sc : Nat)
    (status_code : Option Nat) (headers : List (String × String))
    (hfr : is_framework_response data = false)
    (hprep : prepare data mimetype status_code = (d, sc, ser)) :
    ∃ r, build_response prepare data mimetype content_type status_code headers =
        Except.ok r ∧
      (r.kind = RespKind.json ↔
        (∃ es, d = PyData.pyDict es) ∨ (∃ xs, d = PyData.pyList xs)) := by
  refine ⟨mkResponse (responseKindFor d) d sc
    (resolveContentType content_type mimetype ser d) headers, ?_, ?_⟩
  · simp [build_response, hfr, hprep]
  · cases d <;> simp [mkResponse, StarletteResp.kind, responseKindFor]

/-- C6: For every data value that the code classifies as a native
framework response, invoking the build routine with that value as data
fails with the `InvalidReturnShape` `TypeError`, regardless of the
mimetype, content-type, status-code and headers arguments, and before any
body/status normalization occurs (the failure is the same for every
normalization collaborator). -/
theorem build_response_rejects_framework_response (data : PyData)
    (prepare : PrepareFn) (mimetype content_type : Option String)
    (status_code : Option Nat) (headers : List (String × String))
    (hfr : is_framework_response data = true) :
    build_response prepare data mimetype content_type status_code headers =
      Except.error (BuildError.invalidReturnShape
        "Cannot return starlette.responses.Response in tuple. Only raw data can be returned in tuple.") := by
  simp [build_response, hfr]

/-- C7 (amended): the final content type handed to the response
constructor is the first truthy (non-null and non-empty) value among the
explicit contentType argument, the mimetype and the serialized mimetype,
falling back to the serialized mimetype when none is truthy; only when
that result is null does inference apply — `text/plain` for textual data,
`application/octet-stream` for raw binary data, and otherwise the response
class's own default media type. -/
theorem build_response_content_type {prepare : PrepareFn} (data d : PyData)
    (mimetype content_type ser : Option String) (sc : Nat)
    (status_code : Option Nat) (headers : List (String × String))
    (hfr : is_framework_response data = false)
    (hprep : prepare data mimetype status_code = (d, sc, ser)) :
    ∃ r, build_response prepare data mimetype content_type status_code headers =
        Except.ok r ∧
      r.mediaType =
        match (if pyTruthy content_type then content_type
               else if pyTruthy mimetype then mimetype else ser) with
        | some s => some s
        | none =>
          match d with
          | PyData.pyStr _ => some "text/plain"
          | PyData.pyBytes _ => some "application/octet-stream"
          | _ => respClassDefaultMediaType (responseKindFor d) := by
  refine ⟨mkResponse (responseKindFor d) d sc
    (resolveContentType content_type mimetype ser d) headers, ?_, ?_⟩
  · simp [build_response, hfr, hprep]
  · simp only [mkResponse, StarletteResp.mediaType, resolveContentType, pyOrStr]
    by_cases h1 : pyTruthy content_type = true
    · cases content_type with
      | none => simp [pyTruthy] at h1
      | some s => simp [h1]
    · have h1' : pyTruthy content_type = false := by simpa using h1
      simp only [h1', Bool.false_eq_true, if_false]
      by_cases h2 : pyTruthy mimetype = true
      · cases mimetype with
        | none => simp [pyTruthy] at h2
        | some s => simp [h2]
      · have h2' : pyTruthy mimetype = false := by simpa using h2
        simp only [h2', Bool.false_eq_true, if_false]
        cases ser with
        | none => cases d <;> simp [responseKindFor, respClassDefaultMediaType]
        | some s => simp

/-- C7 (counterexample to the claim as stated): at the concrete invocation
with contentType `""` (non-null) and mimetype `"text/html"`, the first
non-null value among {contentType, mimetype, serializedMimetype} is `""`,
but the build routine resolves the final content type to `"text/html"`
because Python's `or` also skips the empty string. -/
theorem build_response_content_type_counterexample :
    build_response prepare_body_and_status_code (PyData.pyBytes [104])
        (some "text/html") (some "") (some 200) [] =
      Except.ok (StarletteResp.mk RespKind.generic (PyData.pyBytes [104]) 200
        (some "text/html") [] true false) ∧
    (some "" : Option String) ≠ none ∧
    (StarletteResp.mk RespKind.generic (PyData.pyBytes [104]) 200
        (some "text/html") [] true false).mediaType ≠ some "" := by
  refine ⟨rfl, by simp, by simp [StarletteResp.mediaType]⟩

/-- C8 (amended): for every CanonicalResponse whose body is bytes or null
(per the data model) and whose contentType is non-null and non-empty, the
round trip `toCanonical(toNative(c, m), m)` reproduces `statusCode`,
`contentType` and `headers`, and reproduces `body` exactly (the
constructed native kind always materializes a body). -/
theorem roundtrip_connexion_response (c : ConnexionResponse) (m : Option String)
    (hbody : c.body = PyData.pyNone ∨ ∃ b, c.body = PyData.pyBytes b)
    (hct : pyTruthy c.content_type = true) :
    ∃ native,
      connexion_to_framework_response prepare_body_and_status_code c m =
        Except.ok native ∧
      (framework_to_connexion_response native m).status_code = c.status_code ∧
      (framework_to_connexion_response native m).content_type = c.content_type ∧
      (framework_to_connexion_response native m).headers = c.headers ∧
      (framework_to_connexion_response native m).body = c.body := by
  cases hc : c.content_type with
  | none => rw [hc] at hct; simp [pyTruthy] at hct
  | some s =>
    have hfr : is_framework_response c.body = false := by
      rcases hbody with h | ⟨b, h⟩ <;> rw [h] <;> rfl
    have hkind : responseKindFor c.body = RespKind.generic := by
      rcases hbody with h | ⟨b, h⟩ <;> rw [h] <;> rfl
    rw [hc] at hct
    refine ⟨mkResponse (responseKindFor c.body) c.body c.status_code (some s)
      c.headers, ?_, ?_, ?_, ?_, ?_⟩
    · simp [connexion_to_framework_response, build_response, hfr,
        prepare_body_and_status_code, resolveContentType, pyOrStr, hc, hct]
    · simp [framework_to_connexion_response, mkResponse, StarletteResp.statusCode]
    · simp [framework_to_connexion_response, mkResponse, StarletteResp.mediaType, hc]
    · simp [framework_to_connexion_response, mkResponse, StarletteResp.headers]
    · simp [framework_to_connexion_response, mkResponse, StarletteResp.hasBody,
        StarletteResp.content]

/-- C8 (counterexample to the claim as stated): for the canonical response
with null contentType and mimetype `application/json`, the round trip
yields contentType `application/json`, not the original null — the build
routine fills a null contentType from the mimetype, so contentType is not
reproduced for every canonical response. -/
theorem roundtrip_counterexample :
    connexion_to_framework_response prepare_body_and_status_code
        { status_code := 200
          mimetype := some "application/json"
          content_type := none
          headers := []
          body := PyData.pyNone } none =
      Except.ok (StarletteResp.mk RespKind.generic PyData.pyNone 200
        (some "application/json") [] true false) ∧
    (framework_to_connexion_response
        (StarletteResp.mk RespKind.generic PyData.pyNone 200
          (some "application/json") [] true false) none).content_type =
      some "application/json" ∧
    ({ status_code := 200
       mimetype := some "application/json"
       content_type := none
       headers := []
       body := PyData.pyNone } : ConnexionResponse).content_type = none ∧
    (some "application/json" : Option String) ≠ none := by
  refine ⟨rfl, rfl, rfl, by simp⟩

/-! ## Claim theorem: manual route registration -/

/-- C10 (code bug): applying the decorator returned by `route(rule)` to a
view function registers the rule with no endpoint — the view function is
dropped — whereas `add_url_rule(rule, view_func=f)` registers `f` as the
handler; contrary to the claim and to the decorator's own docstring, the
two are not equivalent. Evaluated at the concrete input `rule = "/"`,
`f = 7`. -/
theorem route_decorator_drops_view_func :
    route_decorator ([] : RouteTable Nat) "/" 7 = ([("/", none)], 7) ∧
    add_url_rule ([] : RouteTable Nat) "/" (some 7) = [("/", some 7)] ∧
    ([("/", (none : Option Nat))] : RouteTable Nat) ≠ [("/", some 7)] := by
  refine ⟨rfl, rfl, by simp⟩

/-! ## Witnesses -/

/-- Witness for C1: a well-formed context naming a registered operation is
dispatched, and the outcome matches the spec-side first-match choice. -/
theorem asgi_app_dispatch_first_match_witness :
    ∃ out,
      asgi_app { apis := ([] : List (String × (Scope → Nat)))
                 operations := [("getPet", fun _ =>
                   Deferred.done (StarletteResp.mk RespKind.json
                     (PyData.pyDict [("name", PyData.pyStr "Rex")]) 200
                     (some "application/json") [] true false))]
                 router := fun _ => (0 : Nat)
                 base_path := "" }
          { method := "GET"
            path := "/pet"
            routingCtx := some { api_base_path := none, operation_id := some "getPet" } } =
        Except.ok out ∧
      specChoice { apis := ([] : List (String × (Scope → Nat)))
                   operations := [("getPet", fun _ =>
                     Deferred.done (StarletteResp.mk RespKind.json
                       (PyData.pyDict [("name", PyData.pyStr "Rex")]) 200
                       (some "application/json") [] true false))]
                   router := fun _ => (0 : Nat)
                   base_path := "" }
          { api_base_path := none, operation_id := some "getPet" } =
        some (choiceOf out) :=
  asgi_app_dispatch_first_match _ _ _ rfl (Or.inr rfl)

/-- Witness for C2: a dict payload yields a JSON-kind response. -/
theorem build_response_shape_dispatch_witness :
    ∃ r, build_response prepare_body_and_status_code
        (PyData.pyDict [("name", PyData.pyStr "Rex")]) none none none [] =
        Except.ok r ∧
      (r.kind = RespKind.json ↔
        (∃ es, PyData.pyDict [("name", PyData.pyStr "Rex")] = PyData.pyDict es) ∨
        (∃ xs, PyData.pyDict [("name", PyData.pyStr "Rex")] = PyData.pyList xs)) :=
  build_response_shape_dispatch _ _ none none none 200 none [] rfl rfl

/-- Witness for C3: a request for a registered foreign base path is
delegated and the sub-application's result is returned unchanged. -/
theorem asgi_app_delegates_to_subapp_witness :
    asgi_app { apis := [("/v1", fun _ => (5 : Nat))]
               operations := []
               router := fun _ => (0 : Nat)
               base_path := "" }
        { method := "GET"
          path := "/v1/pet"
          routingCtx := some { api_base_path := some "/v1", operation_id := none } } =
      Except.ok (Outcome.delegated "/v1" 5) := by
  have h := asgi_app_delegates_to_subapp
    { apis := [("/v1", fun _ => (5 : Nat))]
      operations := []
      router := fun _ => (0 : Nat)
      base_path := "" }
    { method := "GET"
      path := "/v1/pet"
      routingCtx := some { api_base_path := some "/v1", operation_id := none } }
    { api_base_path := some "/v1", operation_id := none }
    "/v1" (fun _ => (5 : Nat)) rfl rfl rfl (by decide)
  exact h.1

/-- Witness for C4: with no delegation and a null operation id, dispatch
falls back to the manual router. -/
theorem asgi_app_unregistered_operation_witness :
    asgi_app { apis := ([] : List (String × (Scope → Nat)))
               operations := []
               router := fun _ => (7 : Nat)
               base_path := "" }
        { method := "GET"
          path := "/manual"
          routingCtx := some { api_base_path := none, operation_id := none } } =
      Except.ok (Outcome.manualRouted 7) := by
  have h := asgi_app_unregistered_operation
    { apis := ([] : List (String × (Scope → Nat)))
      operations := []
      router := fun _ => (7 : Nat)
      base_path := "" }
    { method := "GET"
      path := "/manual"
      routingCtx := some { api_base_path := none, operation_id := none } }
    { api_base_path := none, operation_id := none }
    rfl rfl
  exact h.1 rfl

/-- Witness for C6: a Starlette response nested as data is rejected. -/
theorem build_response_rejects_framework_response_witness :
    build_response prepare_body_and_status_code
        (PyData.pyResp (StarletteResp.mk RespKind.generic PyData.pyNone 200
          none [] true false))
        (some "application/json") (some "text/html") (some 201) [("x", "y")] =
      Except.error (BuildError.invalidReturnShape
        "Cannot return starlette.responses.Response in tuple. Only raw data can be returned in tuple.") :=
  build_response_rejects_framework_response _ _ _ _ _ _ rfl

/-- Witness for C7: a string payload with no content type anywhere gets
`text/plain`. -/
theorem build_response_content_type_witness :
    ∃ r, build_response prepare_body_and_status_code (PyData.pyStr "hello")
        none none none [] = Except.ok r ∧
      r.mediaType = some "text/plain" :=
  @build_response_content_type prepare_body_and_status_code
    (PyData.pyStr "hello") (PyData.pyStr "hello") none none none 200 none []
    rfl rfl

/-- Witness for C8: a canonical response with a non-empty content type and
a bytes body round-trips through the converters. -/
theorem roundtrip_connexion_response_witness :
    ∃ native,
      connexion_to_framework_response prepare_body_and_status_code
          { status_code := 201
            mimetype := none
            content_type := some "text/html"
            headers := [("x-a", "b")]
            body := PyData.pyBytes [104, 105] } none =
        Except.ok native ∧
      (framework_to_connexion_response native none).status_code = 201 ∧
      (framework_to_connexion_response native none).content_type = some "text/html" ∧
      (framework_to_connexion_response native none).headers = [("x-a", "b")] ∧
      (framework_to_connexion_response native none).body = PyData.pyBytes [104, 105] :=
  roundtrip_connexion_response _ none (Or.inr ⟨[104, 105], rfl⟩) rfl

/-- Witness for C9: an operation returning a doubly nested coroutine that
resolves to a response with body `"ok"` is unwrapped by dispatch. -/
theorem asgi_app_unwraps_nested_deferred_witness :
    asgi_app { apis := ([] : List (String × (Scope → Nat)))
               operations := [("op1", fun _ => nestDeferred 2
                 (StarletteResp.mk RespKind.generic (PyData.pyStr "ok") 200
                   (some "text/plain") [] true false))]
               router := fun _ => (0 : Nat)
               base_path := "" }
        { method := "GET"
          path := "/ok"
          routingCtx := some { api_base_path := none, operation_id := some "op1" } } =
      Except.ok (Outcome.responded "op1"
        (StarletteResp.mk RespKind.generic (PyData.pyStr "ok") 200
          (some "text/plain") [] true false)) ∧
    (StarletteResp.mk RespKind.generic (PyData.pyStr "ok") 200
        (some "text/plain") [] true false).content = PyData.pyStr "ok" :=
  ⟨asgi_app_unwraps_nested_deferred _ _ _ "op1" _ 2 _ rfl rfl rfl rfl rfl, rfl⟩
